import Mathlib

/-!
Shallow embedding of the quiz-game program (src/src/state.rs, src/src/instruction.rs,
src/src/processor.rs) and verification of the specification claims.

Modelling conventions:
* `Pubkey` is modelled as `Nat`; u8 fields are modelled as `Nat` (with an explicit
  `% 256` at the one place the code performs u8 arithmetic, `player_count += 1`,
  reflecting the wrapping semantics of a release build).
* Each instruction handler becomes a pure function from the data it actually reads
  (signer flags, account keys, deserialized account contents, instruction payload)
  to `Except ProgramError result`.  An `Except.error` result models the handler
  returning early with that error: the surrounding transaction aborts, so no account
  data changes (the substrate's atomicity guarantee, spec sections 5 and 7).
* External collaborators (`find_program_address`, account creation via
  `invoke_signed`, the delegation venue CPIs, rent lookup) are out of scope of the
  repository; derived addresses are passed in as parameters and compared exactly as
  the code compares them, and external calls are assumed to succeed.
-/

/-- Errors returned by the handlers, mirroring the `solana_program::ProgramError`
variants actually produced by this program.  Spec error classes map to these values:
Unauthorized → `MissingRequiredSignature` (missing signer) or `InvalidAccountData`
(wrong host), InvalidState → `InvalidAccountData`, AddressMismatch →
`InvalidArgument`, MalformedInput → `InvalidInstructionData` or `BorshIoError`. -/
inductive ProgramError where
  | MissingRequiredSignature
  | InvalidArgument
  | InvalidAccountData
  | InvalidInstructionData
  | NotEnoughAccountKeys
  | BorshIoError
  deriving DecidableEq

/-- `QuizSession` record (state.rs lines 20-26). -/
structure QuizSession where
  host : Nat
  question_count : Nat
  player_count : Nat
  active : Bool
  completed : Bool
  deriving DecidableEq

/-- `QuizQuestion` record (state.rs lines 5-9); strings are byte lists. -/
structure QuizQuestion where
  question_text : List Nat
  options : List (List Nat)
  correct_answer_index : Nat
  deriving DecidableEq

/-- `PlayerAnswer` record (state.rs lines 33-36). -/
structure PlayerAnswer where
  player : Nat
  answers : List Nat
  deriving DecidableEq

/-- `PlayerScore` record (state.rs lines 47-50). -/
structure PlayerScore where
  player : Nat
  score : Nat
  deriving DecidableEq

/-- `QuizInstruction` (instruction.rs lines 15-35). -/
inductive QuizInstruction where
  | InitializeQuiz (question_count : Nat)
  | AddQuestion (question_index : Nat) (question_text : List Nat)
      (options : List (List Nat)) (correct_answer_index : Nat)
  | StartQuiz
  | DelegatePlayer
  | SubmitAnswers (answers : List Nat)
  | CommitAnswers
  | CalculateScores
  | UndelegatePlayer (pda_seeds : List (List Nat))
  deriving DecidableEq

/-- Borsh reader for a `u8`: one byte. -/
def readU8 : List Nat → Option (Nat × List Nat)
  | [] => none
  | b :: rest => some (b, rest)

/-- Borsh reader for a `u32` in little-endian byte order. -/
def readU32le : List Nat → Option (Nat × List Nat)
  | b0 :: b1 :: b2 :: b3 :: rest =>
      some (b0 + 256 * b1 + 65536 * b2 + 16777216 * b3, rest)
  | _ => none

/-- Read exactly `n` raw bytes. -/
def readBytes : Nat → List Nat → Option (List Nat × List Nat)
  | 0, input => some ([], input)
  | _ + 1, [] => none
  | n + 1, b :: rest =>
      match readBytes n rest with
      | some (bs, r) => some (b :: bs, r)
      | none => none

/-- Borsh reader for `Vec<u8>`: u32 length prefix followed by that many bytes. -/
def readVecU8 (input : List Nat) : Option (List Nat × List Nat) :=
  match readU32le input with
  | some (n, r) => readBytes n r
  | none => none

/-- Borsh reader for `String`: same wire layout as `Vec<u8>` (the UTF-8 validity
check performed by borsh is abstracted away; no claim depends on string contents). -/
def readString (input : List Nat) : Option (List Nat × List Nat) :=
  readVecU8 input

/-- Read `n` consecutive values with the given reader. -/
def readSeq {α : Type} (reader : List Nat → Option (α × List Nat)) :
    Nat → List Nat → Option (List α × List Nat)
  | 0, input => some ([], input)
  | n + 1, input =>
      match reader input with
      | some (x, r) =>
          match readSeq reader n r with
          | some (xs, r2) => some (x :: xs, r2)
          | none => none
      | none => none

/-- Borsh reader for `AddQuestionData` (instruction.rs lines 7-12):
u8 index, String text, `[String; 4]` options, u8 correct index. -/
def readAddQuestionData (input : List Nat) :
    Option ((Nat × List Nat × List (List Nat) × Nat) × List Nat) :=
  match readU8 input with
  | some (qi, r1) =>
      match readString r1 with
      | some (qt, r2) =>
          match readSeq readString 4 r2 with
          | some (opts, r3) =>
              match readU8 r3 with
              | some (ci, r4) => some ((qi, qt, opts, ci), r4)
              | none => none
          | none => none
      | none => none
  | none => none

/-- Borsh reader for `Vec<Vec<u8>>`: u32 count then that many `Vec<u8>` values. -/
def readVecVecU8 (input : List Nat) : Option (List (List Nat) × List Nat) :=
  match readU32le input with
  | some (n, r) => readSeq readVecU8 n r
  | none => none

/-- `try_from_slice`: deserialize and require the whole buffer to be consumed. -/
def tryFromSlice {α : Type} (reader : List Nat → Option (α × List Nat))
    (input : List Nat) : Option α :=
  match reader input with
  | some (v, rest) => if rest = [] then some v else none
  | none => none

/-- `QuizInstruction::unpack` (instruction.rs lines 38-76).  A buffer shorter than
8 bytes is rejected; otherwise the first 8 bytes are the discriminator.  Every
non-wildcard match arm in the source is the full 8-byte pattern
`[d, 0, 0, 0, 0, 0, 0, 0]`, so bytes 1..8 must all be zero; that common zero test
is factored out here, then the first byte selects the command exactly as the
source's arm order does. -/
def QuizInstruction.unpack : List Nat → Except ProgramError QuizInstruction
  | d0 :: d1 :: d2 :: d3 :: d4 :: d5 :: d6 :: d7 :: rest =>
    if d1 = 0 ∧ d2 = 0 ∧ d3 = 0 ∧ d4 = 0 ∧ d5 = 0 ∧ d6 = 0 ∧ d7 = 0 then
      if d0 = 0 then
        match rest with
        | [] => .error .InvalidInstructionData
        | b :: _ => .ok (.InitializeQuiz b)
      else if d0 = 1 then
        match tryFromSlice readAddQuestionData rest with
        | some q => .ok (.AddQuestion q.1 q.2.1 q.2.2.1 q.2.2.2)
        | none => .error .BorshIoError
      else if d0 = 2 then .ok .StartQuiz
      else if d0 = 3 then .ok .DelegatePlayer
      else if d0 = 4 then
        match tryFromSlice readVecU8 rest with
        | some answers => .ok (.SubmitAnswers answers)
        | none => .error .BorshIoError
      else if d0 = 5 then .ok .CommitAnswers
      else if d0 = 6 then .ok .CalculateScores
      else if d0 = 7 then
        match tryFromSlice readVecVecU8 rest with
        | some seeds => .ok (.UndelegatePlayer seeds)
        | none => .error .BorshIoError
      else .error .InvalidInstructionData
    else .error .InvalidInstructionData
  | _ => .error .InvalidInstructionData

/-- Discriminator byte of each command, per the table in instruction.rs. -/
def instrTag : QuizInstruction → Nat
  | .InitializeQuiz _ => 0
  | .AddQuestion _ _ _ _ => 1
  | .StartQuiz => 2
  | .DelegatePlayer => 3
  | .SubmitAnswers _ => 4
  | .CommitAnswers => 5
  | .CalculateScores => 6
  | .UndelegatePlayer _ => 7

/-- `process_initialize_quiz` (processor.rs lines 61-119).  `quiz_pda` is the
address derived by `find_program_address` (external), `quiz_account_key` the key of
the supplied account; account creation is external and assumed to succeed.  Returns
the `QuizSession` value written to the new account. -/
def process_initialize_quiz (host_key : Nat) (host_is_signer : Bool)
    (quiz_pda : Nat) (quiz_account_key : Nat) (question_count : Nat) :
    Except ProgramError QuizSession :=
  if !host_is_signer then .error .MissingRequiredSignature
  else if quiz_pda ≠ quiz_account_key then .error .InvalidArgument
  else .ok { host := host_key, question_count := question_count,
             player_count := 0, active := false, completed := false }

/-- `process_add_question` (processor.rs lines 121-208).  `quiz_data` is the
deserialized session; `question_pda` the derived address, `question_account_key`
the supplied account key.  Returns the `QuizQuestion` written to the new account;
the session record is never written by this handler. -/
def process_add_question (host_is_signer : Bool) (host_key : Nat)
    (quiz_data : QuizSession) (question_pda : Nat) (question_account_key : Nat)
    (question_index : Nat) (question_text : List Nat)
    (options : List (List Nat)) (correct_answer_index : Nat) :
    Except ProgramError QuizQuestion :=
  if !host_is_signer then .error .MissingRequiredSignature
  else if quiz_data.host ≠ host_key then .error .InvalidAccountData
  else if quiz_data.active then .error .InvalidAccountData
  else if question_pda ≠ question_account_key then .error .InvalidArgument
  else .ok { question_text := question_text, options := options,
             correct_answer_index := correct_answer_index }

/-- `process_start_quiz` (processor.rs lines 210-233).  Returns the session value
written back. -/
def process_start_quiz (host_is_signer : Bool) (host_key : Nat)
    (quiz_data : QuizSession) : Except ProgramError QuizSession :=
  if !host_is_signer then .error .MissingRequiredSignature
  else if quiz_data.host ≠ host_key then .error .InvalidAccountData
  else .ok { quiz_data with active := true }

/-- `process_delegate_player` (processor.rs lines 235-290).  The delegation CPI is
external; the session mutation is `player_count += 1` on a `u8`, i.e. wrapping
addition modulo 256 in a release build. -/
def process_delegate_player (player_is_signer : Bool) (quiz_data : QuizSession) :
    Except ProgramError QuizSession :=
  if !player_is_signer then .error .MissingRequiredSignature
  else if !quiz_data.active || quiz_data.completed then .error .InvalidAccountData
  else .ok { quiz_data with player_count := (quiz_data.player_count + 1) % 256 }

/-- `process_submit_answers` (processor.rs lines 292-330).  Returns the
`PlayerAnswer` value serialized into the supplied answer account.  Note the
handler never reads the targeted record or derives its address: its result does
not depend on who owned the record before the call. -/
def process_submit_answers (player_is_signer : Bool) (player_key : Nat)
    (quiz_data : QuizSession) (answers : List Nat) :
    Except ProgramError PlayerAnswer :=
  if !player_is_signer then .error .MissingRequiredSignature
  else if !quiz_data.active || quiz_data.completed then .error .InvalidAccountData
  else if answers.length ≠ quiz_data.question_count then .error .InvalidInstructionData
  else .ok { player := player_key, answers := answers }

/-- `process_commit_answers` (processor.rs lines 332-356).  After the checks the
handler only performs the external `commit_accounts` CPI; it writes nothing. -/
def process_commit_answers (host_is_signer : Bool) (host_key : Nat)
    (quiz_data : QuizSession) : Except ProgramError Unit :=
  if !host_is_signer then .error .MissingRequiredSignature
  else if quiz_data.host ≠ host_key then .error .InvalidAccountData
  else .ok ()

/-- One loop iteration of the scoring loop (processor.rs lines 394-398): for
`(i, answer_idx)` in `answers.iter().enumerate()`, add 1 when
`i < questions.len() && answer_idx == questions[i].correct_answer_index`. -/
def calc_score_loop (questions : List QuizQuestion) : Nat → List Nat → Nat
  | _, [] => 0
  | i, answer_idx :: rest =>
    (match questions[i]? with
     | some q => if answer_idx = q.correct_answer_index then 1 else 0
     | none => 0) + calc_score_loop questions (i + 1) rest

/-- Score of one player (processor.rs lines 393-398): the enumerate loop starting
at index 0 with accumulator 0. -/
def calc_score (questions : List QuizQuestion) (answers : List Nat) : Nat :=
  calc_score_loop questions 0 answers

/-- The per-player accounts consumed by the scoring loop (processor.rs lines
384-387): the deserialized `PlayerAnswer`, the derived score address
(`find_program_address`, external) and the supplied score account key.  The
system-program account also read per player carries no data and is omitted. -/
structure PlayerAccounts where
  answer_record : PlayerAnswer
  score_pda : Nat
  score_account_key : Nat
  deriving DecidableEq

/-- The question-reading loop (processor.rs lines 376-381): take `n` question
accounts from the remaining account list, failing when the list is exhausted
(`next_account_info` returns `NotEnoughAccountKeys`). -/
def read_questions : Nat → List QuizQuestion → Except ProgramError (List QuizQuestion)
  | 0, _ => .ok []
  | _ + 1, [] => .error .NotEnoughAccountKeys
  | n + 1, q :: rest =>
      match read_questions n rest with
      | .ok qs => .ok (q :: qs)
      | .error e => .error e

/-- The per-player loop of `process_calculate_scores` (processor.rs lines
384-453): for each of `n` players consume one `PlayerAccounts` group, check the
score address, compute the score and emit the `PlayerScore` written to the new
score account. -/
def process_players (questions : List QuizQuestion) :
    Nat → List PlayerAccounts → Except ProgramError (List PlayerScore)
  | 0, _ => .ok []
  | _ + 1, [] => .error .NotEnoughAccountKeys
  | n + 1, e :: rest =>
    let score := calc_score questions e.answer_record.answers
    if e.score_pda ≠ e.score_account_key then .error .InvalidArgument
    else
      match process_players questions n rest with
      | .ok ss => .ok ({ player := e.answer_record.player, score := score } :: ss)
      | .error err => .error err

/-- `process_calculate_scores` (processor.rs lines 358-461).  Returns the session
value written back (with `completed := true`) and the list of `PlayerScore`
records created.  Note the handler checks signer and host but never checks
`quiz_data.active` or `quiz_data.completed`. -/
def process_calculate_scores (host_is_signer : Bool) (host_key : Nat)
    (quiz_data : QuizSession) (question_accounts : List QuizQuestion)
    (player_accounts : List PlayerAccounts) :
    Except ProgramError (QuizSession × List PlayerScore) :=
  if !host_is_signer then .error .MissingRequiredSignature
  else if quiz_data.host ≠ host_key then .error .InvalidAccountData
  else
    match read_questions quiz_data.question_count question_accounts with
    | .error e => .error e
    | .ok questions =>
      match process_players questions quiz_data.player_count player_accounts with
      | .error e => .error e
      | .ok scores => .ok ({ quiz_data with completed := true }, scores)

/-- Count of matching answer/question pairs; used to relate the indexed scoring
loop to the specification's formula. -/
def countCorrect : List (Nat × QuizQuestion) → Nat
  | [] => 0
  | p :: rest => (if p.1 = p.2.correct_answer_index then 1 else 0) + countCorrect rest

/-- The specification's scoring formula (spec section 4.3), written from the
spec's words for comparison with `calc_score`: the number of indices `i` in
`0..min(len(answers), question_count)` with
`answers[i] == questions[i].correct_answer_index`. -/
def spec_score (questions : List QuizQuestion) (answers : List Nat) : Nat :=
  (List.range (min answers.length questions.length)).countP
    (fun i => decide (answers[i]? = (questions[i]?).map QuizQuestion.correct_answer_index))

/-- C1: the claim says a CalculateScores call on a session with `active = false`
must fail and leave `completed = false`.  The handler never checks `active`:
this closed evaluation shows a host-signed call on a never-started session
(`active = false`) succeeding, scoring a player, and setting `completed := true`. -/
theorem calculate_scores_succeeds_when_inactive :
    process_calculate_scores true 0
      { host := 0, question_count := 1, player_count := 1,
        active := false, completed := false }
      [{ question_text := [], options := [[], [], [], []], correct_answer_index := 0 }]
      [{ answer_record := { player := 3, answers := [0] },
         score_pda := 50, score_account_key := 50 }] =
      .ok ({ host := 0, question_count := 1, player_count := 1,
             active := false, completed := true },
           [{ player := 3, score := 1 }]) := rfl

/-- C2: the claim says a PlayerAnswer record is mutable only by its owning player.
`process_submit_answers` never reads the targeted record nor derives its address,
so its outcome is independent of the record's prior owner: with the same session
and the same targeted record, a call signed by key 1 and a call signed by key 2
both succeed, each overwriting the record with itself as owner. -/
theorem submit_answers_ignores_record_owner :
    process_submit_answers true 1
      { host := 0, question_count := 2, player_count := 1,
        active := true, completed := false } [5, 5] =
      .ok { player := 1, answers := [5, 5] } ∧
    process_submit_answers true 2
      { host := 0, question_count := 2, player_count := 1,
        active := true, completed := false } [5, 5] =
      .ok { player := 2, answers := [5, 5] } := ⟨rfl, rfl⟩

/-- C4: concrete scenario with question_count = 2 and correct answers [1, 3]:
recorded answers [1, 3] score 2 and [0, 3] score 1 (shown end-to-end through
CalculateScores), and SubmitAnswers with [1, 3, 9] (length 3) fails with
`InvalidInstructionData` (the MalformedInput class) before any write. -/
theorem scoring_scenario :
    process_calculate_scores true 0
      { host := 0, question_count := 2, player_count := 2,
        active := true, completed := false }
      [{ question_text := [], options := [[], [], [], []], correct_answer_index := 1 },
       { question_text := [], options := [[], [], [], []], correct_answer_index := 3 }]
      [{ answer_record := { player := 10, answers := [1, 3] },
         score_pda := 100, score_account_key := 100 },
       { answer_record := { player := 11, answers := [0, 3] },
         score_pda := 101, score_account_key := 101 }] =
      .ok ({ host := 0, question_count := 2, player_count := 2,
             active := true, completed := true },
           [{ player := 10, score := 2 }, { player := 11, score := 1 }]) ∧
    process_submit_answers true 7
      { host := 0, question_count := 2, player_count := 2,
        active := true, completed := false } [1, 3, 9] =
      .error .InvalidInstructionData := ⟨rfl, rfl⟩

/-- C7: a successful InitializeQuiz (signed host, matching derived address) writes
a session with the caller as host, the given question_count, player_count 0,
active false, completed false. -/
theorem initialize_quiz_result (host_key quiz_pda quiz_key qc : Nat)
    (hpda : quiz_pda = quiz_key) :
    process_initialize_quiz host_key true quiz_pda quiz_key qc =
      .ok { host := host_key, question_count := qc, player_count := 0,
            active := false, completed := false } := by
  simp [process_initialize_quiz, hpda]

/-- Witness for C7 at host 5, question_count 3. -/
theorem initialize_quiz_result_witness :
    process_initialize_quiz 5 true 9 9 3 =
      .ok { host := 5, question_count := 3, player_count := 0,
            active := false, completed := false } :=
  initialize_quiz_result 5 9 9 3 rfl

/-- C10: a successful DelegatePlayer (signed player, session active and not
completed) sets player_count to `(old + 1) % 256` — the u8 increment has no
upper-bound check. -/
theorem delegate_player_wraps (s : QuizSession)
    (hA : s.active = true) (hC : s.completed = false) :
    process_delegate_player true s =
      .ok { s with player_count := (s.player_count + 1) % 256 } := by
  simp [process_delegate_player, hA, hC]

/-- Witness for C10: the 256th delegation wraps player_count from 255 back to 0. -/
theorem delegate_player_wraps_witness :
    process_delegate_player true
      { host := 0, question_count := 2, player_count := 255,
        active := true, completed := false } =
      .ok { host := 0, question_count := 2, player_count := 0,
            active := true, completed := false } :=
  delegate_player_wraps
    { host := 0, question_count := 2, player_count := 255,
      active := true, completed := false } rfl rfl

/-- C5: with a signed player and a session that is active and not completed,
SubmitAnswers fails with `InvalidInstructionData` (MalformedInput class) when the
answer count differs from question_count — the transaction aborts, so the record
is unchanged — and succeeds when it matches, writing a record holding exactly the
submitted answers (a subsequent read returns them). -/
theorem submit_answers_length_gate (player_key : Nat) (s : QuizSession)
    (answers : List Nat) (hA : s.active = true) (hC : s.completed = false) :
    (answers.length ≠ s.question_count →
       process_submit_answers true player_key s answers =
         .error .InvalidInstructionData) ∧
    (answers.length = s.question_count →
       process_submit_answers true player_key s answers =
         .ok { player := player_key, answers := answers }) := by
  constructor <;> intro h <;> simp [process_submit_answers, hA, hC, h]

/-- Witness for C5 with question_count 2: length 1 is rejected, length 2 is
stored verbatim. -/
theorem submit_answers_length_gate_witness :
    process_submit_answers true 7
      { host := 0, question_count := 2, player_count := 0,
        active := true, completed := false } [1] =
      .error .InvalidInstructionData ∧
    process_submit_answers true 7
      { host := 0, question_count := 2, player_count := 0,
        active := true, completed := false } [1, 3] =
      .ok { player := 7, answers := [1, 3] } :=
  ⟨(submit_answers_length_gate 7
      { host := 0, question_count := 2, player_count := 0,
        active := true, completed := false } [1] rfl rfl).1 (by decide),
   (submit_answers_length_gate 7
      { host := 0, question_count := 2, player_count := 0,
        active := true, completed := false } [1, 3] rfl rfl).2 (by decide)⟩

/-- C6 counterexample: the claim quantifies over every caller, but a caller whose
host account did not sign fails the signer check first, with
`MissingRequiredSignature` (the Unauthorized class), not the InvalidState-class
error `InvalidAccountData`. -/
theorem add_question_unsigned_error :
    process_add_question false 0
      { host := 0, question_count := 1, player_count := 0,
        active := true, completed := false }
      0 0 0 [] [] 0 = .error .MissingRequiredSignature ∧
    ProgramError.MissingRequiredSignature ≠ ProgramError.InvalidAccountData :=
  ⟨rfl, by decide⟩

/-- C6 amended: for every signed caller (host or not) and every session with
`active = true`, AddQuestion fails with `InvalidAccountData` — the code's value
for the InvalidState class (and also for wrong-host Unauthorized) — and, the call
having aborted, no question record is created and the session is unchanged. -/
theorem add_question_active_fails_signed (host_key : Nat) (s : QuizSession)
    (question_pda question_account_key question_index : Nat)
    (question_text : List Nat) (options : List (List Nat))
    (correct_answer_index : Nat) (hA : s.active = true) :
    process_add_question true host_key s question_pda question_account_key
      question_index question_text options correct_answer_index =
      .error .InvalidAccountData := by
  by_cases h : s.host = host_key <;> simp [process_add_question, h, hA]

/-- Witness for the amended C6: a signed non-host caller on an active session. -/
theorem add_question_active_fails_signed_witness :
    process_add_question true 4
      { host := 0, question_count := 1, player_count := 0,
        active := true, completed := false }
      0 0 0 [] [] 0 = .error .InvalidAccountData :=
  add_question_active_fails_signed 4
    { host := 0, question_count := 1, player_count := 0,
      active := true, completed := false } 0 0 0 [] [] 0 rfl

/-- C9: each host-authorized operation (AddQuestion, StartQuiz, CommitAnswers,
CalculateScores), called with a signer whose key differs from the session host,
fails with `InvalidAccountData` (the code's wrong-host Unauthorized value).  The
host check precedes every write in each handler, so the aborted call leaves the
session record exactly as it was. -/
theorem host_auth_wrong_host_fails (caller : Nat) (s : QuizSession)
    (h : caller ≠ s.host) :
    (∀ question_pda question_account_key question_index question_text options
        correct_answer_index,
       process_add_question true caller s question_pda question_account_key
         question_index question_text options correct_answer_index =
         .error .InvalidAccountData) ∧
    process_start_quiz true caller s = .error .InvalidAccountData ∧
    process_commit_answers true caller s = .error .InvalidAccountData ∧
    (∀ question_accounts player_accounts,
       process_calculate_scores true caller s question_accounts player_accounts =
         .error .InvalidAccountData) := by
  have h2 : s.host ≠ caller := fun e => h e.symm
  refine ⟨fun _ _ _ _ _ _ => ?_, ?_, ?_, fun _ _ => ?_⟩ <;>
    simp [process_add_question, process_start_quiz, process_commit_answers,
          process_calculate_scores, h2]

/-- Witness for C9: caller 1 against a session hosted by 0. -/
theorem host_auth_wrong_host_fails_witness :
    process_add_question true 1
      { host := 0, question_count := 2, player_count := 0,
        active := false, completed := false } 0 0 0 [] [] 0 =
      .error .InvalidAccountData ∧
    process_start_quiz true 1
      { host := 0, question_count := 2, player_count := 0,
        active := false, completed := false } = .error .InvalidAccountData ∧
    process_commit_answers true 1
      { host := 0, question_count := 2, player_count := 0,
        active := false, completed := false } = .error .InvalidAccountData ∧
    process_calculate_scores true 1
      { host := 0, question_count := 2, player_count := 0,
        active := false, completed := false } [] [] =
      .error .InvalidAccountData :=
  let t := host_auth_wrong_host_fails 1
    { host := 0, question_count := 2, player_count := 0,
      active := false, completed := false } (by decide)
  ⟨t.1 0 0 0 [] [] 0, t.2.1, t.2.2.1, t.2.2.2 [] []⟩

/-- C8 counterexample: the claim says bytes 1..8 of the discriminator are not
semantically significant and first byte 2 maps to StartQuiz.  The source matches
the full 8-byte array, so `[2, 1, 0, 0, 0, 0, 0, 0]` hits the wildcard arm and
fails, while `[2, 0, 0, 0, 0, 0, 0, 0]` decodes to StartQuiz. -/
theorem unpack_tail_bytes_significant :
    QuizInstruction.unpack [2, 1, 0, 0, 0, 0, 0, 0] =
      .error .InvalidInstructionData ∧
    QuizInstruction.unpack [2, 0, 0, 0, 0, 0, 0, 0] = .ok .StartQuiz := ⟨rfl, rfl⟩


/-- C8 amended: a buffer shorter than 8 bytes fails with
`InvalidInstructionData`; an 8-byte discriminator with any nonzero byte in
positions 1..8 fails with `InvalidInstructionData`; with bytes 1..8 all zero, a
first byte 8 or more fails with `InvalidInstructionData`, a successful decode
yields the command whose discriminator byte equals the first byte
(0..7 → InitializeQuiz, AddQuestion, StartQuiz, DelegatePlayer, SubmitAnswers,
CommitAnswers, CalculateScores, UndelegatePlayer), and the payload-free commands
2, 3, 5 and 6 always decode. -/
theorem unpack_discriminator_spec :
    (∀ input : List Nat, input.length < 8 →
       QuizInstruction.unpack input = .error .InvalidInstructionData) ∧
    (∀ (d0 d1 d2 d3 d4 d5 d6 d7 : Nat) (rest : List Nat),
       ¬(d1 = 0 ∧ d2 = 0 ∧ d3 = 0 ∧ d4 = 0 ∧ d5 = 0 ∧ d6 = 0 ∧ d7 = 0) →
       QuizInstruction.unpack (d0 :: d1 :: d2 :: d3 :: d4 :: d5 :: d6 :: d7 :: rest) =
         .error .InvalidInstructionData) ∧
    (∀ (d : Nat) (rest : List Nat), 8 ≤ d →
       QuizInstruction.unpack (d :: 0 :: 0 :: 0 :: 0 :: 0 :: 0 :: 0 :: rest) =
         .error .InvalidInstructionData) ∧
    (∀ (d : Nat) (rest : List Nat) (ins : QuizInstruction),
       QuizInstruction.unpack (d :: 0 :: 0 :: 0 :: 0 :: 0 :: 0 :: 0 :: rest) = .ok ins →
       instrTag ins = d) ∧
    (∀ rest : List Nat,
       QuizInstruction.unpack (2 :: 0 :: 0 :: 0 :: 0 :: 0 :: 0 :: 0 :: rest) =
         .ok .StartQuiz ∧
       QuizInstruction.unpack (3 :: 0 :: 0 :: 0 :: 0 :: 0 :: 0 :: 0 :: rest) =
         .ok .DelegatePlayer ∧
       QuizInstruction.unpack (5 :: 0 :: 0 :: 0 :: 0 :: 0 :: 0 :: 0 :: rest) =
         .ok .CommitAnswers ∧
       QuizInstruction.unpack (6 :: 0 :: 0 :: 0 :: 0 :: 0 :: 0 :: 0 :: rest) =
         .ok .CalculateScores) := by
  have hshort : ∀ input : List Nat, input.length < 8 →
      QuizInstruction.unpack input = .error .InvalidInstructionData := by
    intro input h
    rcases input with _ | ⟨a, _ | ⟨b, _ | ⟨c, _ | ⟨d, _ | ⟨e, _ | ⟨f, _ |
      ⟨g, _ | ⟨x, rest⟩⟩⟩⟩⟩⟩⟩⟩
    · rfl
    · rfl
    · rfl
    · rfl
    · rfl
    · rfl
    · rfl
    · rfl
    · simp only [List.length_cons] at h; omega
  have htail : ∀ (d0 d1 d2 d3 d4 d5 d6 d7 : Nat) (rest : List Nat),
      ¬(d1 = 0 ∧ d2 = 0 ∧ d3 = 0 ∧ d4 = 0 ∧ d5 = 0 ∧ d6 = 0 ∧ d7 = 0) →
      QuizInstruction.unpack (d0 :: d1 :: d2 :: d3 :: d4 :: d5 :: d6 :: d7 :: rest) =
        .error .InvalidInstructionData := by
    intro d0 d1 d2 d3 d4 d5 d6 d7 rest hne
    simp only [QuizInstruction.unpack]
    rw [if_neg hne]
  have hbig : ∀ (d : Nat) (rest : List Nat), 8 ≤ d →
      QuizInstruction.unpack (d :: 0 :: 0 :: 0 :: 0 :: 0 :: 0 :: 0 :: rest) =
        .error .InvalidInstructionData := by
    intro d rest hd
    obtain ⟨n, rfl⟩ : ∃ n, d = n + 8 := ⟨d - 8, by omega⟩
    rfl
  have hroute : ∀ (d : Nat) (rest : List Nat) (ins : QuizInstruction),
      QuizInstruction.unpack (d :: 0 :: 0 :: 0 :: 0 :: 0 :: 0 :: 0 :: rest) = .ok ins →
      instrTag ins = d := by
    intro d rest ins h
    rcases Nat.lt_or_ge d 8 with hd | hd
    · interval_cases d
      · cases rest with
        | nil =>
            rw [show QuizInstruction.unpack
                (0 :: 0 :: 0 :: 0 :: 0 :: 0 :: 0 :: 0 :: ([] : List Nat)) =
                Except.error ProgramError.InvalidInstructionData from rfl] at h
            exact Except.noConfusion h
        | cons b t =>
            rw [show QuizInstruction.unpack
                (0 :: 0 :: 0 :: 0 :: 0 :: 0 :: 0 :: 0 :: b :: t) =
                Except.ok (QuizInstruction.InitializeQuiz b) from rfl] at h
            injection h with h2
            rw [← h2]; rfl
      · rw [show QuizInstruction.unpack
            (1 :: 0 :: 0 :: 0 :: 0 :: 0 :: 0 :: 0 :: rest) =
            (match tryFromSlice readAddQuestionData rest with
             | some q => Except.ok (QuizInstruction.AddQuestion q.1 q.2.1 q.2.2.1 q.2.2.2)
             | none => Except.error ProgramError.BorshIoError) from rfl] at h
        cases hq : tryFromSlice readAddQuestionData rest with
        | none => rw [hq] at h; exact Except.noConfusion h
        | some q => rw [hq] at h; injection h with h2; rw [← h2]; rfl
      · rw [show QuizInstruction.unpack
            (2 :: 0 :: 0 :: 0 :: 0 :: 0 :: 0 :: 0 :: rest) =
            Except.ok QuizInstruction.StartQuiz from rfl] at h
        injection h with h2; rw [← h2]; rfl
      · rw [show QuizInstruction.unpack
            (3 :: 0 :: 0 :: 0 :: 0 :: 0 :: 0 :: 0 :: rest) =
            Except.ok QuizInstruction.DelegatePlayer from rfl] at h
        injection h with h2; rw [← h2]; rfl
      · rw [show QuizInstruction.unpack
            (4 :: 0 :: 0 :: 0 :: 0 :: 0 :: 0 :: 0 :: rest) =
            (match tryFromSlice readVecU8 rest with
             | some answers => Except.ok (QuizInstruction.SubmitAnswers answers)
             | none => Except.error ProgramError.BorshIoError) from rfl] at h
        cases hq : tryFromSlice readVecU8 rest with
        | none => rw [hq] at h; exact Except.noConfusion h
        | some answers => rw [hq] at h; injection h with h2; rw [← h2]; rfl
      · rw [show QuizInstruction.unpack
            (5 :: 0 :: 0 :: 0 :: 0 :: 0 :: 0 :: 0 :: rest) =
            Except.ok QuizInstruction.CommitAnswers from rfl] at h
        injection h with h2; rw [← h2]; rfl
      · rw [show QuizInstruction.unpack
            (6 :: 0 :: 0 :: 0 :: 0 :: 0 :: 0 :: 0 :: rest) =
            Except.ok QuizInstruction.CalculateScores from rfl] at h
        injection h with h2; rw [← h2]; rfl
      · rw [show QuizInstruction.unpack
            (7 :: 0 :: 0 :: 0 :: 0 :: 0 :: 0 :: 0 :: rest) =
            (match tryFromSlice readVecVecU8 rest with
             | some seeds => Except.ok (QuizInstruction.UndelegatePlayer seeds)
             | none => Except.error ProgramError.BorshIoError) from rfl] at h
        cases hq : tryFromSlice readVecVecU8 rest with
        | none => rw [hq] at h; exact Except.noConfusion h
        | some seeds => rw [hq] at h; injection h with h2; rw [← h2]; rfl
    · rw [hbig d rest hd] at h
      exact Except.noConfusion h
  have hfixed : ∀ rest : List Nat,
      QuizInstruction.unpack (2 :: 0 :: 0 :: 0 :: 0 :: 0 :: 0 :: 0 :: rest) =
        .ok .StartQuiz ∧
      QuizInstruction.unpack (3 :: 0 :: 0 :: 0 :: 0 :: 0 :: 0 :: 0 :: rest) =
        .ok .DelegatePlayer ∧
      QuizInstruction.unpack (5 :: 0 :: 0 :: 0 :: 0 :: 0 :: 0 :: 0 :: rest) =
        .ok .CommitAnswers ∧
      QuizInstruction.unpack (6 :: 0 :: 0 :: 0 :: 0 :: 0 :: 0 :: 0 :: rest) =
        .ok .CalculateScores := fun rest => ⟨rfl, rfl, rfl, rfl⟩
  exact ⟨hshort, htail, hbig, hroute, hfixed⟩

/-- Witness for the amended C8, applying each part at concrete buffers. -/
theorem unpack_discriminator_spec_witness :
    QuizInstruction.unpack [1, 2] = .error .InvalidInstructionData ∧
    QuizInstruction.unpack [0, 9, 0, 0, 0, 0, 0, 0] =
      .error .InvalidInstructionData ∧
    QuizInstruction.unpack [8, 0, 0, 0, 0, 0, 0, 0] =
      .error .InvalidInstructionData ∧
    instrTag .CommitAnswers = 5 ∧
    QuizInstruction.unpack [2, 0, 0, 0, 0, 0, 0, 0] = .ok .StartQuiz :=
  ⟨unpack_discriminator_spec.1 [1, 2] (by decide),
   unpack_discriminator_spec.2.1 0 9 0 0 0 0 0 0 [] (by decide),
   unpack_discriminator_spec.2.2.1 8 [] (by decide),
   unpack_discriminator_spec.2.2.2.1 5 [] .CommitAnswers rfl,
   (unpack_discriminator_spec.2.2.2.2 []).1⟩

/-- Helper: the indexed scoring loop started at position `i` counts the matching
pairs of the answers zipped with the questions from position `i` on. -/
theorem calc_score_loop_eq_countCorrect (questions : List QuizQuestion) :
    ∀ (answers : List Nat) (i : Nat),
      calc_score_loop questions i answers =
        countCorrect (answers.zip (questions.drop i)) := by
  intro answers
  induction answers with
  | nil => intro i; rfl
  | cons a rest ih =>
    intro i
    cases hd : questions.drop i with
    | nil =>
      have h1 : questions[i]? = none := by rw [← List.head?_drop, hd]; rfl
      have h2 : questions.drop (i + 1) = [] := by
        rw [← List.drop_drop]; rw [hd]; rfl
      simp only [calc_score_loop, h1, ih (i + 1), h2, hd, List.zip_nil_right,
        countCorrect]
    | cons q qs =>
      have h1 : questions[i]? = some q := by rw [← List.head?_drop, hd]; rfl
      have h2 : questions.drop (i + 1) = qs := by
        rw [← List.drop_drop]; rw [hd]; rfl
      simp only [calc_score_loop, h1, ih (i + 1), h2, hd, List.zip_cons_cons,
        countCorrect]
      rfl

/-- Helper: unfolding the specification count over a leading answer/question pair. -/
theorem spec_score_cons (a : Nat) (rest : List Nat) (q : QuizQuestion)
    (qs : List QuizQuestion) :
    spec_score (q :: qs) (a :: rest) =
      (if a = q.correct_answer_index then 1 else 0) + spec_score qs rest := by
  simp only [spec_score, List.length_cons]
  have hmin : min (rest.length + 1) (qs.length + 1) = min rest.length qs.length + 1 := by
    omega
  rw [hmin, List.range_succ_eq_map, List.countP_cons, List.countP_map]
  simp only [Function.comp_def, List.getElem?_cons_succ, List.getElem?_cons_zero,
    Option.map_some', Option.some.injEq, decide_eq_true_eq]
  rw [Nat.add_comm]

/-- Helper: the matching-pair count of a zip equals the specification's count
over indices below the minimum of the two lengths. -/
theorem countCorrect_zip_eq_spec (answers : List Nat) :
    ∀ questions : List QuizQuestion,
      countCorrect (answers.zip questions) = spec_score questions answers := by
  induction answers with
  | nil => intro q; simp [countCorrect, spec_score]
  | cons a rest ih =>
    intro q
    cases q with
    | nil => simp [countCorrect, spec_score, List.zip_nil_right]
    | cons q qs =>
      rw [List.zip_cons_cons]
      show (if a = q.correct_answer_index then 1 else 0) + countCorrect (rest.zip qs) = _
      rw [ih qs, spec_score_cons]

/-- C3: the score computed by the CalculateScores loop equals the
specification's count of indices `i` in `0..min(len(answers), question_count)`
with `answers[i] == questions[i].correct_answer_index`, and is at most the
number of questions.  Purity holds by construction: `calc_score` is a function
of `(questions, answers)` alone, so identical inputs give identical scores. -/
theorem calc_score_spec (questions : List QuizQuestion) (answers : List Nat) :
    calc_score questions answers = spec_score questions answers ∧
    calc_score questions answers ≤ questions.length := by
  have h : calc_score questions answers = spec_score questions answers := by
    rw [calc_score, calc_score_loop_eq_countCorrect questions answers 0,
      List.drop_zero, countCorrect_zip_eq_spec]
  refine ⟨h, ?_⟩
  rw [h, spec_score]
  calc (List.range (min answers.length questions.length)).countP _
      ≤ (List.range (min answers.length questions.length)).length :=
        List.countP_le_length _
    _ = min answers.length questions.length := List.length_range _
    _ ≤ questions.length := Nat.min_le_right _ _
